import Mathlib

/-!
Verification of the anote editor's composition state machine, save
orchestrator, draft cache and liveness watchdog, as a shallow embedding of
the repository's TypeScript sources:

- `src/libs/web/storage/local-storage-service.ts` (the Draft Cache),
- `src/libs/web/state/editor.ts` (the Save Orchestrator),
- `src/components/editor/editor.tsx` (the Composition State Machine,
  Pending Command Buffer and Command Dispatcher),
- the `safetyTimer` watchdog intervals of the two editor variants found in
  `src/unnamed/part_001` and `src/unnamed/part_002`.

Modelling conventions: `window.localStorage` is a flat association list of
string keys to string values; JavaScript timestamps are `Nat` milliseconds;
the single-threaded event loop is modelled by applying handler functions to
explicit state values in sequence; effects a handler dispatches to the
document surface (ProseMirror transactions, change notifications) are
collected in lists. React `useState` updates and `useRef` writes are both
modelled as taking effect immediately inside the handler that performs
them. `Date.now()` and the editor's current selection text are passed as
explicit arguments. Fallible primitives (`localStorage.setItem`, which can
raise a quota error, and `JSON.parse`/`JSON.stringify`) take an explicit
failure flag; primitives that cannot throw (`getItem`, `removeItem`,
`key`) are pure.
-/

namespace Anote

/-! ### window.localStorage -/

/-- A flat string key-value store, modelling `window.localStorage`. -/
abbrev Store := List (String × String)

/-- Model of `localStorage.getItem`: the value at the first matching key,
`none` for JavaScript `null`. -/
def getItem (st : Store) (k : String) : Option String :=
  match st with
  | [] => none
  | (k', v) :: rest => if k' = k then some v else getItem rest k

/-- Model of `localStorage.setItem` (the non-throwing case): overwrite in
place, or append a new entry. -/
def setItem (st : Store) (k v : String) : Store :=
  match st with
  | [] => [(k, v)]
  | (k', v') :: rest => if k' = k then (k, v) :: rest else (k', v') :: setItem rest k v

/-- Model of `localStorage.removeItem`. -/
def removeItem (st : Store) (k : String) : Store :=
  match st with
  | [] => []
  | (k', v') :: rest => if k' = k then removeItem rest k else (k', v') :: removeItem rest k

theorem getItem_setItem_self (st : Store) (k v : String) :
    getItem (setItem st k v) k = some v := by
  induction st with
  | nil => simp [setItem, getItem]
  | cons hd tl ih =>
    obtain ⟨a, b⟩ := hd
    by_cases h : a = k
    · subst h
      simp [setItem, getItem]
    · simp [setItem, getItem, h, ih]

theorem getItem_setItem_ne (st : Store) (k k' v : String) (h : k' ≠ k) :
    getItem (setItem st k v) k' = getItem st k' := by
  have h' : k ≠ k' := Ne.symm h
  induction st with
  | nil => simp [setItem, getItem, h']
  | cons hd tl ih =>
    obtain ⟨a, b⟩ := hd
    by_cases hk : a = k
    · subst hk
      simp [setItem, getItem, h']
    · by_cases hk' : a = k'
      · subst hk'
        simp [setItem, getItem, hk]
      · simp [setItem, getItem, hk, hk', ih]

theorem getItem_removeItem_self (st : Store) (k : String) :
    getItem (removeItem st k) k = none := by
  induction st with
  | nil => simp [removeItem, getItem]
  | cons hd tl ih =>
    obtain ⟨a, b⟩ := hd
    by_cases h : a = k
    · simp [removeItem, h, ih]
    · simp [removeItem, getItem, h, ih]

theorem getItem_removeItem_ne (st : Store) (k k' : String) (h : k' ≠ k) :
    getItem (removeItem st k) k' = getItem st k' := by
  have h' : k ≠ k' := Ne.symm h
  induction st with
  | nil => simp [removeItem]
  | cons hd tl ih =>
    obtain ⟨a, b⟩ := hd
    by_cases hk : a = k
    · subst hk
      simp [removeItem, getItem, h', ih]
    · simp [removeItem, getItem, hk, ih]

/-! ### JavaScript semantics helpers -/

/-- JavaScript truthiness of a string-or-null/undefined value: `null`,
`undefined` and the empty string are falsy. -/
def truthyS : Option String → Bool
  | some s => s ≠ ""
  | none => false

/-- JavaScript `x || undefined` applied to a string-or-null: a falsy value
(null or the empty string) becomes `undefined`. -/
def orUndefined : Option String → Option String
  | some s => if s = "" then none else some s
  | none => none

/-- JavaScript `x || d` on an optional string with a string default
(used for `note.content || ''`). -/
def strOr (o : Option String) (d : String) : String :=
  match o with
  | some s => if s = "" then d else s
  | none => d

/-- Decimal digit value of a character, if any. -/
def digitVal (c : Char) : Option Nat :=
  if '0' ≤ c ∧ c ≤ '9' then some (c.toNat - '0'.toNat) else none

/-- Parse a non-empty all-digit character list. -/
def parseNatList : List Char → Option Nat
  | [] => none
  | cs => cs.foldl (fun acc c => match acc, digitVal c with
      | some n, some d => some (n * 10 + d)
      | _, _ => none) (some 0)

/-- Model of `parseInt(s, 10)` restricted to the strings the service
stores (decimal `Date.now()` renderings); a non-numeric string (JavaScript
`NaN`) is modelled as `none`. -/
def jsParseInt (s : String) : Option Nat := parseNatList s.data

/-- String containment, modelling JavaScript `hay.includes(needle)`. -/
def strIncludes (hay needle : String) : Bool := decide (needle.data <:+: hay.data)

/-- Model of `hay.startsWith(p)`. -/
def strStarts (s p : String) : Bool := p.data.isPrefixOf s.data

/-- Model of `hay.endsWith(p)`. -/
def strEnds (s p : String) : Bool := decide (p.data <:+ s.data)

/-! ### LocalStorageService (`src/libs/web/storage/local-storage-service.ts`)

Storage keys are `STORAGE_PREFIX + noteId + suffix` with
`STORAGE_PREFIX = "anote_"` and the suffixes `"_content"`, `"_title"`,
`"_modified"` and `"_meta"`; the literals are inlined below. -/

/-- Key under which a note's content is stored. -/
def contentKey (noteId : String) : String := "anote_" ++ noteId ++ "_content"

/-- Key under which a note's title is stored. -/
def titleKey (noteId : String) : String := "anote_" ++ noteId ++ "_title"

/-- Key under which a note's last-modified timestamp is stored. -/
def modifiedKey (noteId : String) : String := "anote_" ++ noteId ++ "_modified"

/-- Key under which metadata is stored. -/
def metaKey (k : String) : String := "anote_" ++ k ++ "_meta"

theorem contentKey_ne_titleKey (id : String) : contentKey id ≠ titleKey id := by
  intro h
  have h2 := congrArg String.length h
  simp [contentKey, titleKey, String.length_append] at h2
  exact absurd h2 (by decide)

theorem contentKey_ne_modifiedKey (id : String) : contentKey id ≠ modifiedKey id := by
  intro h
  have h2 := congrArg String.length h
  simp [contentKey, modifiedKey, String.length_append] at h2
  exact absurd h2 (by decide)

theorem titleKey_ne_modifiedKey (id : String) : titleKey id ≠ modifiedKey id := by
  intro h
  have h2 := congrArg String.length h
  simp [titleKey, modifiedKey, String.length_append] at h2
  exact absurd h2 (by decide)

theorem contentKey_ne_metaKey (id : String) : contentKey id ≠ metaKey id := by
  intro h
  have h2 := congrArg String.length h
  simp [contentKey, metaKey, String.length_append] at h2
  exact absurd h2 (by decide)

theorem titleKey_ne_metaKey (id : String) : titleKey id ≠ metaKey id := by
  intro h
  have h2 := congrArg String.length h
  simp [titleKey, metaKey, String.length_append] at h2
  exact absurd h2 (by decide)

theorem modifiedKey_ne_metaKey (id : String) : modifiedKey id ≠ metaKey id := by
  intro h
  have h2 := congrArg String.length h
  simp [modifiedKey, metaKey, String.length_append] at h2
  exact absurd h2 (by decide)

/-- The `NoteData` record returned by `getNote`: optional content and
title, and the `lastModified` timestamp. -/
structure NoteData where
  id : String
  content : Option String
  title : Option String
  lastModified : Nat
deriving DecidableEq

/-- `localStorage.setItem` with an injected quota failure: the browser may
raise `QuotaExceededError`, modelled by the `quotaFail` flag. -/
def setItemE (quotaFail : Bool) (st : Store) (k v : String) : Except Unit Store :=
  if quotaFail then .error () else .ok (setItem st k v)

/-- Pure effect of `LocalStorageService.saveNote(noteId, content, title)`
when no storage failure occurs: `if (!noteId) return`, then one `setItem`
per defined argument plus the `_modified` timestamp write. -/
def lssSaveNotePure (st : Store) (noteId : String) (content title : Option String)
    (now : Nat) : Store :=
  if noteId = "" then st
  else
    let st := match content with
      | some c => setItem st (contentKey noteId) c
      | none => st
    let st := match title with
      | some t => setItem st (titleKey noteId) t
      | none => st
    setItem st (modifiedKey noteId) (toString now)

/-- `LocalStorageService.saveNote` with the fallible `setItem`: the method
body has no try/catch, so a storage failure propagates to the caller as a
rejected promise. -/
def lssSaveNote (quotaFail : Bool) (st : Store) (noteId : String)
    (content title : Option String) (now : Nat) : Except Unit Store :=
  if noteId = "" then .ok st
  else do
    let st ← match content with
      | some c => setItemE quotaFail st (contentKey noteId) c
      | none => .ok st
    let st ← match title with
      | some t => setItemE quotaFail st (titleKey noteId) t
      | none => .ok st
    setItemE quotaFail st (modifiedKey noteId) (toString now)

/-- `LocalStorageService.getNote`: reads content and title through
`|| undefined` (so an empty stored string reads back as undefined),
returns `undefined` when no key is present, and parses the timestamp with
`parseInt`, defaulting to `Date.now()`. Uses only the non-throwing
`getItem` primitive. -/
def lssGetNote (st : Store) (noteId : String) (now : Nat) : Option NoteData :=
  if noteId = "" then none
  else
    let content := orUndefined (getItem st (contentKey noteId))
    let title := orUndefined (getItem st (titleKey noteId))
    let lastModifiedStr := getItem st (modifiedKey noteId)
    if content = none ∧ title = none ∧ truthyS lastModifiedStr = false then none
    else some
      { id := noteId
        content := content
        title := title
        lastModified :=
          match lastModifiedStr with
          | some s => if s ≠ "" then (jsParseInt s).getD 0 else now
          | none => now }

/-- `LocalStorageService.deleteNote`: removes the four keys of the note;
uses only the non-throwing `removeItem` primitive. -/
def lssDeleteNote (st : Store) (noteId : String) : Store :=
  if noteId = "" then st
  else
    removeItem (removeItem (removeItem (removeItem st
      (contentKey noteId)) (titleKey noteId)) (modifiedKey noteId)) (metaKey noteId)

/-- Note-id extraction of `getUnsyncedNotes`' key scan: keys starting with
the prefix and ending in the content or title suffix contribute an id. -/
def extractNoteId (key : String) : Option String :=
  if strStarts key "anote_" then
    if strEnds key "_content" then some ((key.drop 6).dropRight 8)
    else if strEnds key "_title" then some ((key.drop 6).dropRight 6)
    else none
  else none

/-- `LocalStorageService.getUnsyncedNotes`: scan all keys, collect note
ids (a `Set`, modelled by order-preserving deduplication), then `getNote`
each; uses only non-throwing primitives. -/
def lssGetUnsyncedNotes (st : Store) (now : Nat) : List NoteData :=
  let ids := ((st.map Prod.fst).filterMap extractNoteId).eraseDups
  ids.filterMap (fun id => lssGetNote st id now)

/-- `LocalStorageService.clearAll`: collect the keys with the service
prefix, then remove each; uses only non-throwing primitives. -/
def lssClearAll (st : Store) : Store :=
  let keysToRemove := (st.map Prod.fst).filter (fun k => strStarts k "anote_")
  keysToRemove.foldl removeItem st

/-- `LocalStorageService.setMeta`: `JSON.stringify` plus `setItem` inside
try/catch; a serialization or quota failure (the `fail` flag) is logged
and absorbed, leaving the store unchanged. -/
def lssSetMeta (fail : Bool) (st : Store) (key value : String) : Store :=
  if fail then st else setItem st (metaKey key) value

/-- `LocalStorageService.getMeta`: `getItem`, a truthiness check
(`if (!serializedValue) return null`), then `JSON.parse` inside try/catch;
a parse failure (the `parseFail` flag) is logged and absorbed as `null`. -/
def lssGetMeta (parseFail : Bool) (st : Store) (key : String) : Option String :=
  match getItem st (metaKey key) with
  | none => none
  | some s => if s = "" then none else if parseFail then none else some s

/-! ### Save Orchestrator (`src/libs/web/state/editor.ts`) -/

/-- The server-side note model, restricted to the fields the orchestrator
reads (`NoteModel` has optional content and title). -/
structure Note where
  id : String
  content : Option String
  title : Option String
deriving DecidableEq

/-- The orchestrator's per-session state: the `useState` values of
`useEditor` plus the shared `localStorage` store. -/
structure EditorSession where
  hasLocalChanges : Bool
  localContent : String
  localTitle : String
  isSaving : Bool
  store : Store
deriving DecidableEq

/-- Externally visible actions of the orchestrator's handlers. -/
inductive SaveEffect
  | draftWrite (noteId : String)
  | draftDelete (noteId : String)
  | scheduleRemoteDebounce
  | scheduleLocalDebounce (noteId : String)
  | remoteCreate
  | remoteUpdate
  | treeRefresh
  | toastMsg
deriving DecidableEq

/-- The runtime value actually stored by `onEditorChange`'s draft write:
the call `localStorageService.saveNote(note.id, { content, title,
lastModified: Date.now() })` passes an object literal where the declared
`content?: string` parameter stands, so `localStorage.setItem` stores its
string coercion and the `title` parameter is `undefined`. -/
def objectCoercion : String := "[object Object]"

/-- `onEditorChange`: ignores the change while a save is in flight;
otherwise updates the local state, immediately writes the draft (with the
object-coercion slip above) when the note has an id, and schedules the
debounced remote save `onNoteChange`. `extractTitleFromContent` is not in
the repository sources and is passed in as `extract`. -/
def onEditorChange (extract : String → String) (sess : EditorSession)
    (note : Option Note) (content : String) (now : Nat) :
    EditorSession × List SaveEffect :=
  if sess.isSaving then (sess, [])
  else
    let title := extract content
    let sess := { sess with localContent := content, localTitle := title,
                            hasLocalChanges := true }
    let (sess, eff) :=
      match note with
      | some n =>
        if n.id ≠ "" then
          ({ sess with
              store := lssSaveNotePure sess.store n.id (some objectCoercion) none now },
           [SaveEffect.draftWrite n.id])
        else (sess, [])
      | none => (sess, [])
    (sess, eff ++ [SaveEffect.scheduleRemoteDebounce])

/-- `onTitleChange`: updates the local title, marks local changes, and
schedules the 500 ms debounced draft write when the note has an id. -/
def onTitleChange (sess : EditorSession) (note : Option Note) (title : String) :
    EditorSession × List SaveEffect :=
  let sess := { sess with localTitle := title, hasLocalChanges := true }
  match note with
  | some n =>
    if n.id ≠ "" then (sess, [SaveEffect.scheduleLocalDebounce n.id])
    else (sess, [])
  | none => (sess, [])

/-- Outcome of the remote round trip (`createNote`/`updateNote`); a
failure surfaces in `saveNote`'s catch branch. -/
inductive RemoteResult
  | ok
  | fail
deriving DecidableEq

/-- `saveNote`: guarded by `!note?.id` and by `isSaving`; on success it
clears `hasLocalChanges`, deletes the draft, refreshes the tree and
toasts; on failure it toasts and returns false; `finally` clears
`isSaving`. Returns the promised boolean, the new state, and the effects
(including the remote call actually made). -/
def saveNote (sess : EditorSession) (note : Option Note) (isNew : Bool)
    (remote : RemoteResult) : Bool × EditorSession × List SaveEffect :=
  match note with
  | none => (false, sess, [])
  | some n =>
    if n.id = "" then (false, sess, [])
    else if sess.isSaving then (false, sess, [])
    else
      match remote with
      | .ok =>
        (true,
         { sess with hasLocalChanges := false,
                     store := lssDeleteNote sess.store n.id,
                     isSaving := false },
         [(if isNew then SaveEffect.remoteCreate else SaveEffect.remoteUpdate),
          SaveEffect.draftDelete n.id, SaveEffect.treeRefresh, SaveEffect.toastMsg])
      | .fail =>
        (false, { sess with isSaving := false },
         [(if isNew then SaveEffect.remoteCreate else SaveEffect.remoteUpdate),
          SaveEffect.toastMsg])

/-- Per-attempt outcome of one `saveNote()` call inside the retry loop:
success, failure by resolving `false`, or failure by throwing. (The
`saveNote` of this repository catches its own errors and resolves `false`,
so `failThrow` is reachable only for a throwing save implementation.) -/
inductive AttemptOutcome
  | ok
  | failFalse
  | failThrow
deriving DecidableEq

/-- The `for (let i = 0; i < retryCount; i++)` body of
`saveNoteWithRetry`, as a function of the attempt-outcome oracle `f`:
returns (result, attempts made, 1-second backoff sleeps performed). The
1000 ms backoff sits in the catch branch only, and is skipped on the last
iteration (`i === retryCount - 1` returns false instead). -/
def retryLoop (f : Nat → AttemptOutcome) (i : Nat) : Nat → Bool × Nat × Nat
  | 0 => (false, 0, 0)
  | fuel + 1 =>
    match f i with
    | .ok => (true, 1, 0)
    | .failFalse =>
      let r := retryLoop f (i + 1) fuel
      (r.1, r.2.1 + 1, r.2.2)
    | .failThrow =>
      if fuel = 0 then (false, 1, 0)
      else
        let r := retryLoop f (i + 1) fuel
        (r.1, r.2.1 + 1, r.2.2 + 1)

/-- `saveNoteWithRetry(retryCount)`: the leading `if (isSaving) return
false` guard, then the retry loop. -/
def saveNoteWithRetry (isSaving : Bool) (f : Nat → AttemptOutcome)
    (retryCount : Nat) : Bool × Nat × Nat :=
  if isSaving then (false, 0, 0) else retryLoop f 0 retryCount

/-- `discardChanges`: a no-op without a note; otherwise restores the local
content and title from the note (`note.content || ''`), clears
`hasLocalChanges`, and deletes the draft when the note has an id. -/
def discardChanges (sess : EditorSession) (note : Option Note) : EditorSession :=
  match note with
  | none => sess
  | some n =>
    let sess := { sess with localContent := strOr n.content "",
                            localTitle := strOr n.title "",
                            hasLocalChanges := false }
    if n.id ≠ "" then { sess with store := lssDeleteNote sess.store n.id }
    else sess

/-- The `SaveStatus` of the status-indicator editor variant
(`src/unnamed/part_001`, second document). -/
inductive SaveStatus
  | unsaved
  | saving
  | uploading
  | verifying
  | saved
  | error
deriving DecidableEq

/-- `handleSave` of that variant: returns unchanged when there is nothing
to save or when a save is already in flight (status `saving`, `uploading`
or `verifying`); otherwise walks the advisory sub-phases, runs `saveNote`,
and lands on `saved` or `error`. -/
def handleSave (status : SaveStatus) (sess : EditorSession) (note : Option Note)
    (isNew : Bool) (remote : RemoteResult) :
    SaveStatus × EditorSession × List SaveEffect :=
  if ¬sess.hasLocalChanges ∨ status = .saving ∨ status = .uploading ∨
      status = .verifying then
    (status, sess, [])
  else
    let r := saveNote sess note isNew remote
    ((if r.1 then SaveStatus.saved else SaveStatus.error), r.2.1, r.2.2)

/-! ### Composition State Machine (`src/components/editor/editor.tsx`) -/

/-- The `inputMethodState` ref: `'chinese' | 'english'`. -/
inductive IM
  | chinese
  | english
deriving DecidableEq

/-- Transactions and notifications a handler dispatches to the document
surface. `insertText` is the `delete(from, to).insertText(text, from)`
transaction; `refresh` is the no-op `state.tr` dispatch; `changeNotify` is
the `handleEditorChange` propagation to `onEditorChange`. -/
inductive Effect
  | insertText (text : String)
  | refresh
  | changeNotify
deriving DecidableEq

/-- The component's composition state: `isComposing` (`useState`) and the
refs `compositionStartTime`, `lastCompositionEndTime`, `pendingChars`,
`isEditorLocked`, `lastInputValue`, `inputMethodState`. -/
structure CompState where
  isComposing : Bool
  compositionStartTime : Nat
  lastCompositionEndTime : Nat
  pendingChars : String
  isEditorLocked : Bool
  lastInputValue : String
  inputMethodState : IM
deriving DecidableEq

/-- The configured trigger-character set of `handleKeyDown`. -/
def specialChars : List String :=
  ["/", "#", "*", ">", "`", "-", "+", "=", "[", "]", "(", ")", "!", "@"]

/-- `handleMarkdownCommand`: while composing it saves the command into
`pendingChars` (overwriting) and dispatches nothing; otherwise it
dispatches the delete-and-insert transaction followed by the
`requestAnimationFrame` refresh (the `'/'` case and the general case
produce the same transaction shape). The editor view is assumed mounted
(the early `return` on a missing view is not modelled). -/
def handleMarkdownCommand (s : CompState) (command : String) :
    CompState × List Effect :=
  if s.isComposing then ({ s with pendingChars := command }, [])
  else (s, [Effect.insertText command, Effect.refresh])

/-- The digit keys `1`-`9` used for input-method candidate selection. -/
def isDigitKey (k : String) : Bool :=
  k ∈ ["1", "2", "3", "4", "5", "6", "7", "8", "9"]

/-- Result of `handleKeyDown`: the new state, the dispatched effects, and
whether `e.preventDefault()` was called. -/
structure KeyResult where
  state : CompState
  effects : List Effect
  prevented : Bool
deriving DecidableEq

/-- `handleKeyDown` of `editor.tsx`: a trigger character while composing
is stored into `pendingChars` (with `preventDefault` only in the
`'/'`-under-Chinese branch, which routes through `handleMarkdownCommand`
and is likewise buffered); a trigger character outside composition is
prevented and dispatched; digits while composing are prevented and left to
the input method. -/
def handleKeyDown (s : CompState) (key : String) : KeyResult :=
  if specialChars.contains key then
    if s.isComposing then
      if key = "/" ∧ s.inputMethodState = IM.chinese then
        let r := handleMarkdownCommand s "/"
        ⟨r.1, r.2, true⟩
      else ⟨{ s with pendingChars := key }, [], false⟩
    else
      let r := handleMarkdownCommand s key
      ⟨r.1, r.2, true⟩
  else if s.isComposing ∧ isDigitKey key then ⟨s, [], true⟩
  else ⟨s, [], false⟩

/-- `handleCompositionStart`: enters `Composing`, records the start time,
clears `pendingChars`, unlocks, and snapshots the selection text. -/
def handleCompositionStart (s : CompState) (now : Nat) (selText : String) :
    CompState :=
  { s with isComposing := true, compositionStartTime := now,
           pendingChars := "", isEditorLocked := false,
           lastInputValue := selText }

/-- `handleCompositionEnd`: records `lastCompositionEndTime` first, then
discards sessions shorter than 100 ms; otherwise leaves `Composing`,
unlocks, applies the duplicate-input trim, dispatches the buffered command
through `handleMarkdownCommand` (the Chinese `'/'` branch calls it with
`'/'`, which is the buffered value), clears the buffer, and triggers the
change notification. `selText` is the current selection text; `Date.now()`
is `now` (the clock is monotone, so `now` is at least the recorded start
time). -/
def handleCompositionEnd (s : CompState) (now : Nat) (selText : String) :
    CompState × List Effect :=
  let s := { s with lastCompositionEndTime := now }
  if now - s.compositionStartTime < 100 then (s, [])
  else
    let s := { s with isComposing := false, isEditorLocked := false }
    let trimmed :=
      if strIncludes selText s.lastInputValue ∧
          s.lastInputValue.length < selText.length then
        let newContent := selText.drop s.lastInputValue.length
        (newContent, [Effect.insertText newContent])
      else (selText, ([] : List Effect))
    let s := { s with lastInputValue := trimmed.1 }
    let dispatched :=
      if s.pendingChars ≠ "" then
        let r := handleMarkdownCommand s s.pendingChars
        ({ r.1 with pendingChars := "" }, r.2)
      else (s, ([] : List Effect))
    (dispatched.1, trimmed.2 ++ dispatched.2 ++ [Effect.changeNotify])

/-! ### Liveness Watchdog

Two `safetyTimer` intervals exist in the repository's editor variants:
the 5-second timer of `src/unnamed/part_001` (lines 925-945), which works
on `isEditorLocked`, `isComposing` and the `compositionStateRef`, and the
200-millisecond timer of `src/unnamed/part_002` (lines 513-564), which
works on `isEditorLocked`, `isComposing`, `lastCompositionEndTime`,
`lastKeyPressTime` and `pendingChars`. -/

/-- State sampled by the part_001 watchdog. -/
structure Watch1State where
  isEditorLocked : Bool
  isComposing : Bool
  csActive : Bool
  csStartTime : Nat
deriving DecidableEq

/-- One tick of the part_001 `safetyTimer`: force-unlock a stale lock
(without dispatching anything), and force-end a composition active for
more than 10000 ms. -/
def safetyTick1 (s : Watch1State) (now : Nat) : Watch1State :=
  let s := if s.isEditorLocked ∧ ¬s.isComposing then { s with isEditorLocked := false }
           else s
  if s.csActive ∧ 10000 < now - s.csStartTime then
    { s with csActive := false, isComposing := false, isEditorLocked := false }
  else s

/-- State sampled by the part_002 watchdog. -/
structure Watch2State where
  isEditorLocked : Bool
  isComposing : Bool
  lastCompositionEndTime : Nat
  lastKeyPressTime : Nat
  pendingChars : String
  needsSpecialCharHandling : Bool
deriving DecidableEq

/-- Effects the part_002 watchdog dispatches to the editor. -/
inductive WatchEffect
  | refresh
  | focus
deriving DecidableEq

/-- One tick of the part_002 `safetyTimer`, three sequential checks: a
stale lock is cleared with a refresh dispatch; a lock older than 200 ms
past the last composition end is cleared with a refresh and a focus; a
lock despite a keypress in the last 300 ms is cleared and any pending
characters are dropped. Each later check re-reads the lock, so at most one
branch fires per tick. The tick never touches `isComposing`. -/
def safetyTick2 (s : Watch2State) (now : Nat) : Watch2State × List WatchEffect :=
  let step1 :=
    if s.isEditorLocked ∧ ¬s.isComposing then
      ({ s with isEditorLocked := false }, [WatchEffect.refresh])
    else (s, ([] : List WatchEffect))
  let s := step1.1
  let step2 :=
    if s.isEditorLocked ∧ 200 < now - s.lastCompositionEndTime then
      ({ s with isEditorLocked := false }, [WatchEffect.refresh, WatchEffect.focus])
    else (s, ([] : List WatchEffect))
  let s := step2.1
  let step3 :=
    if s.isEditorLocked ∧ now - s.lastKeyPressTime < 300 then
      (if s.pendingChars ≠ "" then
        { s with isEditorLocked := false, pendingChars := "",
                 needsSpecialCharHandling := false }
       else { s with isEditorLocked := false }, ([] : List WatchEffect))
    else (s, ([] : List WatchEffect))
  (step3.1, step1.2 ++ step2.2 ++ step3.2)

/-! ## Claims -/

/-- Deleting a note removes every key `getNote` reads, so the draft is no
longer found. -/
theorem lssGetNote_lssDeleteNote (st : Store) (id : String) (now : Nat)
    (hid : id ≠ "") :
    lssGetNote (lssDeleteNote st id) id now = none := by
  simp [lssDeleteNote, lssGetNote, hid, orUndefined, truthyS,
    getItem_removeItem_ne _ _ _ (contentKey_ne_metaKey id),
    getItem_removeItem_ne _ _ _ (contentKey_ne_modifiedKey id),
    getItem_removeItem_ne _ _ _ (contentKey_ne_titleKey id),
    getItem_removeItem_ne _ _ _ (titleKey_ne_metaKey id),
    getItem_removeItem_ne _ _ _ (titleKey_ne_modifiedKey id),
    getItem_removeItem_ne _ _ _ (modifiedKey_ne_metaKey id),
    getItem_removeItem_self]

/-- Claim C7: `discardChanges` is a no-op without a note; with a note it
restores the local content and title to the note's server-confirmed values
(`note.content || ''`), clears `hasLocalChanges` (the `Saved` reading of
the session), and removes the DraftRecord for the document from the Draft
Cache. -/
theorem C7_discardChanges (sess : EditorSession) (n : Note) (now : Nat)
    (hid : n.id ≠ "") :
    discardChanges sess none = sess ∧
    (discardChanges sess (some n)).localContent = strOr n.content "" ∧
    (discardChanges sess (some n)).localTitle = strOr n.title "" ∧
    (discardChanges sess (some n)).hasLocalChanges = false ∧
    lssGetNote (discardChanges sess (some n)).store n.id now = none := by
  refine ⟨rfl, ?_, ?_, ?_, ?_⟩ <;>
    simp [discardChanges, hid, lssGetNote_lssDeleteNote _ _ _ hid]

/-- Claim C7, witness: discarding with a stored draft at note id `"n1"`
restores the note's values and leaves no draft behind. -/
theorem C7_discardChanges_witness :
    ("n1" : String) ≠ "" ∧
    (discardChanges
        { hasLocalChanges := true, localContent := "draft", localTitle := "d",
          isSaving := false,
          store := lssSaveNotePure [] "n1" (some "draft") (some "d") 3 }
        (some { id := "n1", content := some "srv", title := some "s" })).localContent
      = strOr (some "srv") "" ∧
    lssGetNote (discardChanges
        { hasLocalChanges := true, localContent := "draft", localTitle := "d",
          isSaving := false,
          store := lssSaveNotePure [] "n1" (some "draft") (some "d") 3 }
        (some { id := "n1", content := some "srv", title := some "s" })).store "n1" 9
      = none := by
  have h := C7_discardChanges
    { hasLocalChanges := true, localContent := "draft", localTitle := "d",
      isSaving := false,
      store := lssSaveNotePure [] "n1" (some "draft") (some "d") 3 }
    { id := "n1", content := some "srv", title := some "s" } 9 (by decide)
  exact ⟨by decide, h.2.1, h.2.2.2.2⟩

/-- Claim C8, counterexample: a content mutation arriving while a save is
in flight is ignored by `onEditorChange` (`if (isSaving) return`), so
`hasLocalChanges` is not true immediately after this content mutation. -/
theorem C8_counterexample :
    (onEditorChange (fun _ => "")
        { hasLocalChanges := false, localContent := "", localTitle := "",
          isSaving := true, store := [] }
        (some { id := "n1", content := none, title := none }) "new content" 0)
      = ({ hasLocalChanges := false, localContent := "", localTitle := "",
           isSaving := true, store := [] }, []) ∧
    ((onEditorChange (fun _ => "")
        { hasLocalChanges := false, localContent := "", localTitle := "",
          isSaving := true, store := [] }
        (some { id := "n1", content := none, title := none })
        "new content" 0).1.hasLocalChanges ≠ true) := by decide

/-- Claim C8, amended: `hasLocalChanges` is true immediately after any
title mutation — `onTitleChange` has no `isSaving` guard, so this holds
on an arbitrary session (`sessAny`), in contrast with `onEditorChange`,
which ignores content changes during an in-flight save — and after any
content mutation made while no save is in flight; it is false
immediately after a successful remote save and after any discard with a
note (again on an arbitrary session and note), and a successful save
additionally deletes the DraftRecord for the document. -/
theorem C8_amended (extract : String → String) (sess sessAny : EditorSession)
    (note noteAny : Option Note) (content title : String) (now now2 : Nat)
    (n m : Note) (isNew : Bool) (remote : RemoteResult)
    (hns : sess.isSaving = false)
    (hres : (saveNote sess (some n) isNew remote).1 = true) :
    (onEditorChange extract sess note content now).1.hasLocalChanges = true ∧
    (onTitleChange sessAny noteAny title).1.hasLocalChanges = true ∧
    (saveNote sess (some n) isNew remote).2.1.hasLocalChanges = false ∧
    lssGetNote (saveNote sess (some n) isNew remote).2.1.store n.id now2 = none ∧
    (discardChanges sessAny (some m)).hasLocalChanges = false := by
  have hid : n.id ≠ "" := by
    intro h
    simp [saveNote, h] at hres
  have hok : remote = RemoteResult.ok := by
    cases remote with
    | ok => rfl
    | fail => simp [saveNote, hid, hns] at hres
  subst hok
  refine ⟨?_, ?_, ?_, ?_, ?_⟩
  · cases note with
    | none => simp [onEditorChange, hns]
    | some m2 => by_cases hm : m2.id = "" <;> simp [onEditorChange, hns, hm]
  · cases noteAny with
    | none => simp [onTitleChange]
    | some m2 => by_cases hm : m2.id = "" <;> simp [onTitleChange, hm]
  · simp [saveNote, hid, hns]
  · simp [saveNote, hid, hns, lssGetNote_lssDeleteNote _ _ _ hid]
  · by_cases hm : m.id = "" <;> simp [discardChanges, hm]

/-- Claim C8, witness: after a content edit on an idle session
`hasLocalChanges` is true, a title edit on a session with a save in
flight still sets it, a discard on that same in-flight session clears
it, and a successful save clears it and the draft. -/
theorem C8_amended_witness :
    ((({ hasLocalChanges := false, localContent := "", localTitle := "",
         isSaving := false, store := [] } : EditorSession)).isSaving = false ∧
      (saveNote { hasLocalChanges := false, localContent := "", localTitle := "",
                  isSaving := false, store := [] }
        (some { id := "n1", content := none, title := none }) false .ok).1 = true) ∧
    ((onEditorChange (fun _ => "t")
        { hasLocalChanges := false, localContent := "", localTitle := "",
          isSaving := false, store := [] }
        (some { id := "n1", content := none, title := none })
        "body" 0).1.hasLocalChanges = true) ∧
    ((onTitleChange
        { hasLocalChanges := false, localContent := "", localTitle := "",
          isSaving := true, store := [] }
        (some { id := "n1", content := none, title := none })
        "ttl").1.hasLocalChanges = true) ∧
    ((saveNote { hasLocalChanges := false, localContent := "", localTitle := "",
                 isSaving := false, store := [] }
      (some { id := "n1", content := none, title := none })
      false .ok).2.1.hasLocalChanges = false) ∧
    ((discardChanges
        { hasLocalChanges := true, localContent := "x", localTitle := "y",
          isSaving := true, store := [] }
        (some { id := "n1", content := none, title := none })).hasLocalChanges
      = false) := by
  have h := C8_amended (fun _ => "t")
    { hasLocalChanges := false, localContent := "", localTitle := "",
      isSaving := false, store := [] }
    { hasLocalChanges := false, localContent := "", localTitle := "",
      isSaving := true, store := [] }
    (some { id := "n1", content := none, title := none })
    (some { id := "n1", content := none, title := none }) "body" "ttl" 0 9
    { id := "n1", content := none, title := none }
    { id := "n1", content := none, title := none } false .ok rfl (by decide)
  have h2 := C8_amended (fun _ => "t")
    { hasLocalChanges := false, localContent := "", localTitle := "",
      isSaving := false, store := [] }
    { hasLocalChanges := true, localContent := "x", localTitle := "y",
      isSaving := true, store := [] }
    (some { id := "n1", content := none, title := none })
    (some { id := "n1", content := none, title := none }) "body" "ttl" 0 9
    { id := "n1", content := none, title := none }
    { id := "n1", content := none, title := none } false .ok rfl (by decide)
  exact ⟨⟨rfl, by decide⟩, h.1, h.2.1, h.2.2.1, h2.2.2.2.2⟩

/-- Claim C2: a save request made while a save is already in flight
returns `false` immediately with no state change and no remote call — for
`saveNote` (the `isSaving` guard), for `saveNoteWithRetry` (its own
leading guard: zero attempts), and for the status-indicator `handleSave`
(the `saving`/`uploading`/`verifying` guard: status and session
unchanged, no effects). -/
theorem C2_singleFlight (sess : EditorSession) (note : Option Note)
    (isNew : Bool) (remote : RemoteResult) (f : Nat → AttemptOutcome)
    (retryCount : Nat) (status : SaveStatus)
    (hs : sess.isSaving = true)
    (hstat : status = .saving ∨ status = .uploading ∨ status = .verifying) :
    saveNote sess note isNew remote = (false, sess, []) ∧
    saveNoteWithRetry true f retryCount = (false, 0, 0) ∧
    handleSave status sess note isNew remote = (status, sess, []) := by
  refine ⟨?_, by simp [saveNoteWithRetry], ?_⟩
  · cases note with
    | none => rfl
    | some n => by_cases hid : n.id = "" <;> simp [saveNote, hid, hs]
  · rcases hstat with h | h | h <;> subst h <;> simp [handleSave]

/-- Claim C2, witness: with a save in flight, a second `saveNote`, a
`saveNoteWithRetry` and a `handleSave` in state `saving` are all
rejected without effects. -/
theorem C2_singleFlight_witness :
    ((({ hasLocalChanges := true, localContent := "c", localTitle := "t",
         isSaving := true, store := [] } : EditorSession)).isSaving = true ∧
      (SaveStatus.saving = SaveStatus.saving ∨ SaveStatus.saving = SaveStatus.uploading ∨
        SaveStatus.saving = SaveStatus.verifying)) ∧
    saveNote { hasLocalChanges := true, localContent := "c", localTitle := "t",
               isSaving := true, store := [] }
      (some { id := "n1", content := none, title := none }) false .ok
      = (false, { hasLocalChanges := true, localContent := "c", localTitle := "t",
                  isSaving := true, store := [] }, []) ∧
    saveNoteWithRetry true (fun _ => .ok) 3 = (false, 0, 0) ∧
    handleSave .saving { hasLocalChanges := true, localContent := "c", localTitle := "t",
                         isSaving := true, store := [] }
      (some { id := "n1", content := none, title := none }) false .ok
      = (.saving, { hasLocalChanges := true, localContent := "c", localTitle := "t",
                    isSaving := true, store := [] }, []) := by
  have h := C2_singleFlight
    { hasLocalChanges := true, localContent := "c", localTitle := "t",
      isSaving := true, store := [] }
    (some { id := "n1", content := none, title := none }) false .ok
    (fun _ => .ok) 3 .saving rfl (Or.inl rfl)
  exact ⟨⟨rfl, Or.inl rfl⟩, h.1, h.2.1, h.2.2⟩

/-- Starting state for the C1 counterexample: a composition in progress
under the English input-method state, with an empty pending buffer. -/
def c1Start : CompState :=
  { isComposing := true, compositionStartTime := 0, lastCompositionEndTime := 0,
    pendingChars := "", isEditorLocked := false, lastInputValue := "",
    inputMethodState := IM.english }

/-- Claim C1, counterexample: two trigger keystrokes `/` then `#` during
one composition leave `pendingChars = "#"` — the assignment
`pendingChars.current = e.key` overwrites the buffer, it does not append,
so the first trigger character is dropped rather than appended. -/
theorem C1_counterexample :
    (handleKeyDown (handleKeyDown c1Start "/").state "#").state.pendingChars = "#" ∧
    (handleKeyDown (handleKeyDown c1Start "/").state "#").state.pendingChars ≠ "/#" := by
  decide

/-- The duplicate-input trim transaction of `handleCompositionEnd`, as a
function of the pre-end state and the selection text. -/
def trimEffectOf (s : CompState) (selText : String) : List Effect :=
  if strIncludes selText s.lastInputValue ∧
      s.lastInputValue.length < selText.length then
    [Effect.insertText (selText.drop s.lastInputValue.length)]
  else []

/-- Claim C1, amended: a trigger keystroke while `Composing` overwrites
`pendingChars` with that character (so the buffer holds only the most
recent trigger character), dispatches nothing to the document, and calls
`preventDefault` exactly in the `/`-under-Chinese branch; a composition
end of dwell at least 100 ms with a non-empty buffer dispatches the
buffered command exactly once — the single insert-plus-refresh after the
optional duplicate trim — and clears the buffer. -/
theorem C1_amended (s s2 : CompState) (key selText : String) (now : Nat)
    (hkey : specialChars.contains key = true) (hcomp : s.isComposing = true)
    (_h1 : s2.isComposing = true) (h2 : s2.pendingChars ≠ "")
    (h3 : 100 ≤ now - s2.compositionStartTime) :
    (handleKeyDown s key).state.pendingChars = key ∧
    (handleKeyDown s key).effects = [] ∧
    ((handleKeyDown s key).prevented = true ↔
      key = "/" ∧ s.inputMethodState = IM.chinese) ∧
    (handleCompositionEnd s2 now selText).2 =
      trimEffectOf s2 selText ++
        [Effect.insertText s2.pendingChars, Effect.refresh, Effect.changeNotify] ∧
    (handleCompositionEnd s2 now selText).1.pendingChars = "" := by
  have hnotlt : ¬ now - s2.compositionStartTime < 100 := by omega
  have hmem : key ∈ specialChars := by simpa using hkey
  have hkd : (handleKeyDown s key).state.pendingChars = key ∧
      (handleKeyDown s key).effects = [] ∧
      ((handleKeyDown s key).prevented = true ↔
        key = "/" ∧ s.inputMethodState = IM.chinese) := by
    by_cases hcn : key = "/" ∧ s.inputMethodState = IM.chinese
    · obtain ⟨hk, hcim⟩ := hcn
      subst hk
      simp [handleKeyDown, handleMarkdownCommand, hmem, hcomp, hcim]
    · simp [handleKeyDown, handleMarkdownCommand, hmem, hcomp, hcn]
  obtain ⟨g1, g2, g3⟩ := hkd
  refine ⟨g1, g2, g3, ?_, ?_⟩
  · by_cases htr : strIncludes selText s2.lastInputValue = true ∧
        s2.lastInputValue.length < selText.length <;>
      simp [handleCompositionEnd, hnotlt, h2, handleMarkdownCommand,
        trimEffectOf, htr]
  · simp [handleCompositionEnd, hnotlt, h2, handleMarkdownCommand]

/-- Claim C1, witness: a `#` keystroke during an English-IM composition
is buffered without dispatch or `preventDefault`, and a 200 ms
composition end dispatches the buffered `#` once. -/
theorem C1_amended_witness :
    (specialChars.contains "#" = true ∧
      ({ isComposing := true, compositionStartTime := 0, lastCompositionEndTime := 0,
         pendingChars := "#", isEditorLocked := false, lastInputValue := "",
         inputMethodState := IM.english } : CompState).isComposing = true ∧
      ({ isComposing := true, compositionStartTime := 0, lastCompositionEndTime := 0,
         pendingChars := "#", isEditorLocked := false, lastInputValue := "",
         inputMethodState := IM.english } : CompState).pendingChars ≠ "" ∧
      100 ≤ 200 -
        ({ isComposing := true, compositionStartTime := 0, lastCompositionEndTime := 0,
           pendingChars := "#", isEditorLocked := false, lastInputValue := "",
           inputMethodState := IM.english } : CompState).compositionStartTime) ∧
    ((handleKeyDown
        { isComposing := true, compositionStartTime := 0, lastCompositionEndTime := 0,
          pendingChars := "#", isEditorLocked := false, lastInputValue := "",
          inputMethodState := IM.english } "#").effects = [] ∧
      (handleCompositionEnd
        { isComposing := true, compositionStartTime := 0, lastCompositionEndTime := 0,
          pendingChars := "#", isEditorLocked := false, lastInputValue := "",
          inputMethodState := IM.english } 200 "").2 =
        trimEffectOf
          { isComposing := true, compositionStartTime := 0, lastCompositionEndTime := 0,
            pendingChars := "#", isEditorLocked := false, lastInputValue := "",
            inputMethodState := IM.english } "" ++
          [Effect.insertText "#", Effect.refresh, Effect.changeNotify]) := by
  have h := C1_amended
    { isComposing := true, compositionStartTime := 0, lastCompositionEndTime := 0,
      pendingChars := "#", isEditorLocked := false, lastInputValue := "",
      inputMethodState := IM.english }
    { isComposing := true, compositionStartTime := 0, lastCompositionEndTime := 0,
      pendingChars := "#", isEditorLocked := false, lastInputValue := "",
      inputMethodState := IM.english }
    "#" "" 200 (by decide) (by decide) (by decide) (by decide) (by decide)
  exact ⟨⟨by decide, by decide, by decide, by decide⟩, h.2.1, h.2.2.2.1⟩

/-- The retry loop makes at most `fuel` attempts. -/
theorem retryLoop_attempts_le (f : Nat → AttemptOutcome) :
    ∀ fuel i, (retryLoop f i fuel).2.1 ≤ fuel := by
  intro fuel
  induction fuel with
  | zero => intro i; simp [retryLoop]
  | succ m ih =>
    intro i
    cases hf : f i with
    | ok => simp [retryLoop, hf]
    | failFalse =>
      simp only [retryLoop, hf]
      exact Nat.succ_le_succ (ih (i + 1))
    | failThrow =>
      by_cases hm : m = 0
      · simp [retryLoop, hf, hm]
      · simp only [retryLoop, hf, if_neg hm]
        exact Nat.succ_le_succ (ih (i + 1))

/-- When no attempt in the window succeeds, the loop returns false after
exactly `fuel` attempts. -/
theorem retryLoop_all_fail (f : Nat → AttemptOutcome) :
    ∀ fuel i, (∀ k, k < fuel → f (i + k) ≠ .ok) →
      (retryLoop f i fuel).1 = false ∧ (retryLoop f i fuel).2.1 = fuel := by
  intro fuel
  induction fuel with
  | zero => intro i _; simp [retryLoop]
  | succ m ih =>
    intro i h
    have h0 : f i ≠ .ok := by simpa using h 0 (Nat.succ_pos m)
    have hrest : ∀ k, k < m → f (i + 1 + k) ≠ .ok := by
      intro k hk
      have := h (k + 1) (by omega)
      simpa [show i + (k + 1) = i + 1 + k by omega] using this
    cases hf : f i with
    | ok => exact absurd hf h0
    | failFalse =>
      obtain ⟨r1, r2⟩ := ih (i + 1) hrest
      simp [retryLoop, hf, r1, r2]
    | failThrow =>
      by_cases hm : m = 0
      · simp [retryLoop, hf, hm]
      · obtain ⟨r1, r2⟩ := ih (i + 1) hrest
        simp [retryLoop, hf, hm, r1, r2]

/-- The loop stops at the first successful attempt: success at relative
position `k` (the earlier attempts failing) gives result true after
exactly `k + 1` attempts. -/
theorem retryLoop_first_ok (f : Nat → AttemptOutcome) :
    ∀ fuel i k, k < fuel → f (i + k) = .ok → (∀ j, j < k → f (i + j) ≠ .ok) →
      (retryLoop f i fuel).1 = true ∧ (retryLoop f i fuel).2.1 = k + 1 := by
  intro fuel
  induction fuel with
  | zero => intro i k hk; omega
  | succ m ih =>
    intro i k hk hok hpre
    cases k with
    | zero =>
      have h0 : f i = .ok := by simpa using hok
      simp [retryLoop, h0]
    | succ k' =>
      have h0 : f i ≠ .ok := by simpa using hpre 0 (Nat.succ_pos k')
      have hok' : f (i + 1 + k') = .ok := by
        simpa [show i + (k' + 1) = i + 1 + k' by omega] using hok
      have hpre' : ∀ j, j < k' → f (i + 1 + j) ≠ .ok := by
        intro j hj
        have := hpre (j + 1) (by omega)
        simpa [show i + (j + 1) = i + 1 + j by omega] using this
      have hm : m ≠ 0 := by omega
      obtain ⟨r1, r2⟩ := ih (i + 1) k' (by omega) hok' hpre'
      cases hf : f i with
      | ok => exact absurd hf h0
      | failFalse => simp [retryLoop, hf, r1, r2]
      | failThrow => simp [retryLoop, hf, hm, r1, r2]

/-- When no attempt in the window throws, the loop performs no backoff
sleeps at all: attempts that fail by resolving false are retried
immediately. -/
theorem retryLoop_no_throw_no_sleep (f : Nat → AttemptOutcome) :
    ∀ fuel i, (∀ k, k < fuel → f (i + k) ≠ .failThrow) →
      (retryLoop f i fuel).2.2 = 0 := by
  intro fuel
  induction fuel with
  | zero => intro i _; simp [retryLoop]
  | succ m ih =>
    intro i h
    have h0 : f i ≠ .failThrow := by simpa using h 0 (Nat.succ_pos m)
    have hrest : ∀ k, k < m → f (i + 1 + k) ≠ .failThrow := by
      intro k hk
      have := h (k + 1) (by omega)
      simpa [show i + (k + 1) = i + 1 + k by omega] using this
    cases hf : f i with
    | ok => simp [retryLoop, hf]
    | failFalse => simp [retryLoop, hf, ih (i + 1) hrest]
    | failThrow => exact absurd hf h0

/-- Attempt-outcome oracle for the reference retry scenario: two failures
(saveNote resolving false) then a success. -/
def twoFailThenOk : Nat → AttemptOutcome :=
  fun i => if i < 2 then .failFalse else .ok

/-- Attempt-outcome oracle where every attempt fails by resolving
false. -/
def allFail : Nat → AttemptOutcome := fun _ => .failFalse

/-- Claim C5, counterexample: three consecutive failing attempts (the
only failure mode `saveNote` produces, since it catches its own errors
and resolves false) run with zero backoff sleeps, not the claimed fixed
1-second backoff between consecutive attempts (which would be two
sleeps for three attempts) — the `setTimeout(1000)` sits only in the
catch branch that a false-resolving save never reaches. -/
theorem C5_counterexample :
    saveNoteWithRetry false allFail 3 = (false, 3, 0) ∧
    ¬ ((saveNoteWithRetry false allFail 3).2.2 = 2) := by decide

/-- Claim C5, amended: `saveNoteWithRetry(N)` makes at most `N` attempts,
stops at the first success returning true (success at attempt `k + 1`
after `k` failures means exactly `k + 1` attempts), and returns false
exactly after all `N` attempts have failed; the 1-second backoff is
performed only after an attempt that threw, so a run whose failures all
resolve false performs no backoff at all; in particular two failures
then a success under `N = 3` gives exactly 3 attempts ending true, and
three failures give false after exactly 3 attempts. -/
theorem C5_retrySemantics (f g e : Nat → AttemptOutcome) (N k : Nat)
    (hk : k < N) (hok : f k = .ok) (hpre : ∀ j, j < k → f j ≠ .ok)
    (hg : ∀ j, j < N → g j ≠ .ok)
    (he : ∀ j, j < N → e j ≠ .failThrow) :
    (saveNoteWithRetry false f N).2.1 ≤ N ∧
    (saveNoteWithRetry false f N).1 = true ∧
    (saveNoteWithRetry false f N).2.1 = k + 1 ∧
    (saveNoteWithRetry false g N).1 = false ∧
    (saveNoteWithRetry false g N).2.1 = N ∧
    (saveNoteWithRetry false e N).2.2 = 0 ∧
    saveNoteWithRetry false twoFailThenOk 3 = (true, 3, 0) ∧
    saveNoteWithRetry false allFail 3 = (false, 3, 0) := by
  have hf := retryLoop_first_ok f N 0 k hk (by simpa using hok)
    (by intro j hj; simpa using hpre j hj)
  have hgf := retryLoop_all_fail g N 0 (by intro j hj; simpa using hg j hj)
  have hes := retryLoop_no_throw_no_sleep e N 0 (by intro j hj; simpa using he j hj)
  refine ⟨?_, ?_, ?_, ?_, ?_, ?_, by decide, by decide⟩
  · simpa [saveNoteWithRetry] using retryLoop_attempts_le f N 0
  · simp [saveNoteWithRetry, hf.1]
  · simp [saveNoteWithRetry, hf.2]
  · simp [saveNoteWithRetry, hgf.1]
  · simp [saveNoteWithRetry, hgf.2]
  · simp [saveNoteWithRetry, hes]

/-- Claim C5, witness: the reference scenario, two failures then a
success under three retries. -/
theorem C5_retrySemantics_witness :
    ((2 : Nat) < 3 ∧ twoFailThenOk 2 = .ok ∧
      (∀ j, j < 2 → twoFailThenOk j ≠ .ok) ∧
      (∀ j, j < 3 → allFail j ≠ .ok) ∧
      (∀ j, j < 3 → allFail j ≠ .failThrow)) ∧
    (saveNoteWithRetry false twoFailThenOk 3).1 = true ∧
    (saveNoteWithRetry false twoFailThenOk 3).2.1 = 2 + 1 ∧
    (saveNoteWithRetry false allFail 3).1 = false ∧
    (saveNoteWithRetry false allFail 3).2.2 = 0 := by
  have h := C5_retrySemantics twoFailThenOk allFail allFail 3 2
    (by decide) (by decide) (by decide) (by decide) (by decide)
  exact ⟨⟨by decide, by decide, by decide, by decide, by decide⟩,
    h.2.1, h.2.2.1, h.2.2.2.1, h.2.2.2.2.2.1⟩

/-- Starting state for the C3 counterexample: a composition began at time
0 with a buffered `/`, the surface locked, and no prior composition
end. -/
def c3Short : CompState :=
  { isComposing := true, compositionStartTime := 0, lastCompositionEndTime := 0,
    pendingChars := "/", isEditorLocked := true, lastInputValue := "",
    inputMethodState := IM.english }

/-- Claim C3, counterexample: a composition end 40 ms after start (below
the 100 ms dwell) dispatches nothing and leaves `isComposing`,
`pendingChars` and the lock unchanged, but it does change the state:
`lastCompositionEndTime` is recorded before the dwell check, so the state
is not left unchanged by the end event. -/
theorem C3_counterexample :
    (handleCompositionEnd c3Short 40 "").1 ≠ c3Short ∧
    (handleCompositionEnd c3Short 40 "").1.lastCompositionEndTime = 40 ∧
    (handleCompositionEnd c3Short 40 "").2 = [] ∧
    (handleCompositionEnd c3Short 40 "").1.isComposing = true ∧
    (handleCompositionEnd c3Short 40 "").1.pendingChars = "/" ∧
    (handleCompositionEnd c3Short 40 "").1.isEditorLocked = true := by decide

/-- Claim C3, amended: a composition end arriving less than 100 ms after
the composition start is discarded with no dispatched effects and no
change notification, leaving every component of the state unchanged
except `lastCompositionEndTime`, which is updated to the end time. -/
theorem C3_shortSessionDiscarded (s : CompState) (now : Nat) (selText : String)
    (h : now - s.compositionStartTime < 100) :
    handleCompositionEnd s now selText =
      ({ s with lastCompositionEndTime := now }, []) := by
  simp [handleCompositionEnd, h]

/-- Claim C3, witness: the 40 ms session end only records the end
time. -/
theorem C3_shortSessionDiscarded_witness :
    (40 - c3Short.compositionStartTime < 100) ∧
    handleCompositionEnd c3Short 40 "x" =
      ({ c3Short with lastCompositionEndTime := 40 }, []) :=
  ⟨by decide, C3_shortSessionDiscarded c3Short 40 "x" (by decide)⟩

/-- Watchdog state for the C6 counterexample: a composition has been
active since time 0 (so for 20 seconds at the tick) under the part_002
watchdog, with the surface not marked locked. -/
def c6Stuck : Watch2State :=
  { isEditorLocked := false, isComposing := true, lastCompositionEndTime := 0,
    lastKeyPressTime := 0, pendingChars := "", needsSpecialCharHandling := false }

/-- Claim C6, counterexample: the part_002 watchdog tick at time 20000,
with a composition active since time 0 (20 s, far beyond the 10 s bound),
changes nothing and dispatches nothing — this watchdog has no
maximum-composition-duration check and never force-ends a composition, so
the machine does not settle in `Idle` under it. -/
theorem C6_counterexample :
    safetyTick2 c6Stuck 20000 = (c6Stuck, []) ∧
    (safetyTick2 c6Stuck 20000).1.isComposing = true := by decide

/-- Claim C6, amended: the claimed tick behaviour is split between the
two watchdog variants. The part_001 tick clears a stale lock (locked, no
composition active) but dispatches no refresh (it only resets the ref),
and force-ends a composition active for more than 10 s, leaving the
machine idle and unlocked; the part_002 tick clears a stale lock and
dispatches a state refresh, but never changes the composing flag on any
state. -/
theorem C6_watchdog (s s1 : Watch1State) (w w2 : Watch2State) (now : Nat)
    (hs1 : s.isEditorLocked = true) (hs2 : s.isComposing = false)
    (ht1 : s1.csActive = true) (ht2 : 10000 < now - s1.csStartTime)
    (hw1 : w.isEditorLocked = true) (hw2 : w.isComposing = false) :
    (safetyTick1 s now).isEditorLocked = false ∧
    (safetyTick1 s1 now).csActive = false ∧
    (safetyTick1 s1 now).isComposing = false ∧
    (safetyTick1 s1 now).isEditorLocked = false ∧
    (safetyTick2 w now).1.isEditorLocked = false ∧
    WatchEffect.refresh ∈ (safetyTick2 w now).2 ∧
    (safetyTick2 w2 now).1.isComposing = w2.isComposing := by
  refine ⟨?_, ?_, ?_, ?_, ?_, ?_, ?_⟩
  · by_cases hc : s.csActive = true ∧ 10000 < now - s.csStartTime <;>
      simp [safetyTick1, hs1, hs2, hc]
  · by_cases hb : s1.isEditorLocked = true ∧ s1.isComposing = false <;>
      simp [safetyTick1, hb, ht1, ht2]
  · by_cases hb : s1.isEditorLocked = true ∧ s1.isComposing = false <;>
      simp [safetyTick1, hb, ht1, ht2]
  · by_cases hb : s1.isEditorLocked = true ∧ s1.isComposing = false <;>
      simp [safetyTick1, hb, ht1, ht2]
  · simp [safetyTick2, hw1, hw2]
  · simp [safetyTick2, hw1, hw2]
  · simp only [safetyTick2]
    split_ifs <;> simp

/-- A part_001 watchdog state that is locked with no active
composition. -/
def c6StaleLock1 : Watch1State :=
  { isEditorLocked := true, isComposing := false, csActive := false, csStartTime := 0 }

/-- A part_001 watchdog state whose composition has been active since
time 0. -/
def c6LongActive1 : Watch1State :=
  { isEditorLocked := false, isComposing := true, csActive := true, csStartTime := 0 }

/-- A part_002 watchdog state that is locked with no active
composition. -/
def c6StaleLock2 : Watch2State :=
  { isEditorLocked := true, isComposing := false, lastCompositionEndTime := 0,
    lastKeyPressTime := 0, pendingChars := "", needsSpecialCharHandling := false }

/-- Claim C6, witness: a stale-locked state is unlocked by both ticks
(with a refresh only from the part_002 tick), and a 20-second-old active
composition is force-ended by the part_001 tick. -/
theorem C6_watchdog_witness :
    (c6StaleLock1.isEditorLocked = true ∧ c6LongActive1.csActive = true ∧
      10000 < 20000 - c6LongActive1.csStartTime ∧
      c6StaleLock2.isEditorLocked = true) ∧
    (safetyTick1 c6StaleLock1 20000).isEditorLocked = false ∧
    (safetyTick1 c6LongActive1 20000).isComposing = false ∧
    WatchEffect.refresh ∈ (safetyTick2 c6StaleLock2 20000).2 := by
  have h := C6_watchdog c6StaleLock1 c6LongActive1 c6StaleLock2 c6Stuck 20000
    rfl rfl rfl (by decide) rfl rfl
  exact ⟨⟨rfl, rfl, by decide, rfl⟩, h.1, h.2.2.1, h.2.2.2.2.2.1⟩

/-- Number of immediate Draft Cache writes among a handler's effects. -/
def countDraftWrites (effs : List SaveEffect) : Nat :=
  (effs.filter fun e =>
    match e with
    | SaveEffect.draftWrite _ => true
    | _ => false).length

/-- Apply a sequence of content edits (content, timestamp) through
`onEditorChange`, collecting the session and the total number of
immediate draft writes. -/
def applyContentEdits (extract : String → String) (sess : EditorSession)
    (note : Option Note) : List (String × Nat) → EditorSession × Nat
  | [] => (sess, 0)
  | (c, t) :: rest =>
    let step := onEditorChange extract sess note c t
    let restRun := applyContentEdits extract step.1 note rest
    (restRun.1, countDraftWrites step.2 + restRun.2)

/-- The C4 failing input: six content edits at 0, 100, 200, 300, 400 and
450 ms — every later edit falls within 500 ms of its predecessor — on an
idle session for note `"n1"`. -/
def c4Run : EditorSession × Nat :=
  applyContentEdits (fun _ => "")
    { hasLocalChanges := false, localContent := "", localTitle := "",
      isSaving := false, store := [] }
    (some { id := "n1", content := none, title := none })
    [("c1", 0), ("c2", 100), ("c3", 200), ("c4", 300), ("c5", 400), ("c6", 450)]

/-- Claim C4, the code evaluated at the failing input: six edits inside
one 500 ms window produce six immediate Draft Cache writes (not one
debounced write — `onEditorChange` bypasses `debouncedSaveToLocalStorage`,
which only `onTitleChange` uses), and the stored draft content is the
string coercion of the object literal passed to `saveNote`'s
`content?: string` parameter, not the final content `"c6"`. -/
theorem C4_divergence :
    c4Run.2 = 6 ∧
    (lssGetNote c4Run.1.store "n1" 999).map NoteData.content =
      some (some "[object Object]") ∧
    (lssGetNote c4Run.1.store "n1" 999).map NoteData.content ≠
      some (some "c6") := by decide

/-- Claim C9, counterexample: `LocalStorageService.saveNote` has no
try/catch, so a quota failure of `localStorage.setItem` propagates to the
caller instead of being logged and absorbed — on note id `"n1"` with a
defined content, an injected storage failure makes the operation throw. -/
theorem C9_counterexample :
    lssSaveNote true [] "n1" (some "c") none 0 = .error () := rfl

/-- Claim C9, amended: only `setMeta` and `getMeta` wrap their fallible
primitives in try/catch — a serialization/quota failure in `setMeta`
leaves the store unchanged and returns normally, and a parse failure in
`getMeta` returns null; `getNote`, `deleteNote`, `getUnsyncedNotes` and
`clearAll` invoke only non-throwing primitives (they are total functions
of the store); `saveNote` returns normally exactly when no storage
failure occurs or its id guard short-circuits, and otherwise propagates
the failure. -/
theorem C9_amended (st : Store) (k v key2 noteId : String)
    (c t : Option String) (now : Nat) (q : Bool) :
    lssSetMeta true st k v = st ∧
    lssGetMeta true st key2 = none ∧
    lssSaveNote false st noteId c t now = .ok (lssSaveNotePure st noteId c t now) ∧
    ((lssSaveNote q st noteId c t now).isOk ↔ (noteId = "" ∨ q = false)) := by
  refine ⟨rfl, ?_, ?_, ?_⟩
  · cases h : getItem st (metaKey key2) with
    | none => simp [lssGetMeta, h]
    | some s => simp [lssGetMeta, h]
  · by_cases hid : noteId = "" <;> cases c <;> cases t <;>
      simp [lssSaveNote, lssSaveNotePure, setItemE, hid, Bind.bind, Except.bind]
  · cases q with
    | false =>
      by_cases hid : noteId = "" <;> cases c <;> cases t <;>
        simp [lssSaveNote, setItemE, hid, Bind.bind, Except.bind, Except.isOk,
          Except.toBool]
    | true =>
      by_cases hid : noteId = "" <;> cases c <;> cases t <;>
        simp [lssSaveNote, setItemE, hid, Bind.bind, Except.bind, Except.isOk,
          Except.toBool]

/-- Claim C10, counterexample: saving an empty content string and reading
it back does not return the saved content — `getNote` coerces the stored
empty string through `|| undefined`, so the returned record's content is
`undefined`, not `""`. -/
theorem C10_counterexample :
    lssGetNote (lssSaveNotePure [] "n" (some "") (some "t") 5) "n" 99 =
      some { id := "n", content := none, title := some "t", lastModified := 5 } ∧
    (lssGetNote (lssSaveNotePure [] "n" (some "") (some "t") 5) "n" 99).map
      NoteData.content ≠ some (some "") := by decide

/-- Claim C10, amended: for every non-empty note id and every pair of
non-empty strings content and title, `saveNote` followed by `getNote`
returns a record whose id, content and title are the saved values. -/
theorem C10_roundTrip (st : Store) (id c t : String) (now : Nat)
    (hid : id ≠ "") (hc : c ≠ "") (ht : t ≠ "") :
    (lssGetNote (lssSaveNotePure st id (some c) (some t) now) id now).map
      (fun r => (r.id, r.content, r.title)) = some (id, some c, some t) := by
  have hck_tk := contentKey_ne_titleKey id
  have hck_mk := contentKey_ne_modifiedKey id
  have htk_mk := titleKey_ne_modifiedKey id
  simp [lssSaveNotePure, lssGetNote, hid, orUndefined, hc, ht, truthyS,
    getItem_setItem_ne _ _ _ _ hck_mk, getItem_setItem_ne _ _ _ _ hck_tk,
    getItem_setItem_ne _ _ _ _ htk_mk, getItem_setItem_self]

/-- Claim C10, witness: the round trip at note id `"n1"`, content `"c"`,
title `"t"`. -/
theorem C10_roundTrip_witness :
    ("n1" ≠ "" ∧ "c" ≠ "" ∧ "t" ≠ "") ∧
    (lssGetNote (lssSaveNotePure [] "n1" (some "c") (some "t") 7) "n1" 7).map
      (fun r => (r.id, r.content, r.title)) = some ("n1", some "c", some "t") :=
  ⟨by decide, C10_roundTrip [] "n1" "c" "t" 7 (by decide) (by decide) (by decide)⟩

end Anote
